import Mathlib

/-!
# Product expressions (Eigen/src/Core/Product.h) and the NEON blocking-size table

A shallow embedding of the product expression class of Eigen: the expression
node `Product<Lhs, Rhs, Option>`, its checked constructor, its shape accessors,
the transpose/adjoint rewriting helper `internal::product_transpose_helper`,
the conversion of an inner product to a scalar, the guards of the coefficient
accessors of `ProductImpl<Lhs, Rhs, Option, Dense>`, and the table
`BlockingSizesLookupTable<float, float>`.

Template parameters become ordinary arguments: a type-level tag is a value of
`KindTag`, a compile-time dimension is an `Int` (with `Dynamic`), and a failed
assertion, like a template that cannot be instantiated, is the absence of a
result.
-/

namespace Eigen

/-! ## Data model -/

/-- The `Option` template parameter of `Product`: "can be DefaultProduct,
AliasFreeProduct, or LazyProduct" (doc comment of the class). -/
inductive ProductOption where
  | DefaultProduct
  | AliasFreeProduct
  | LazyProduct
  deriving DecidableEq

/-- The empty tag structs that Product.h passes as type arguments. `Dense`
and `PermutationStorage` are storage kinds (`ProductImpl<Lhs, Rhs, Option, Dense>`,
`product_transpose_helper<Derived, PermutationStorage, MatrixXpr>`); `MatrixXpr`
is the expression kind (`typedef MatrixXpr XprKind;` in `traits<Product>`, and
the second argument of `generic_xpr_base<Product, MatrixXpr, StorageKind>`).
They are distinct types, so a template specialisation written for one of them
is not selected for another. -/
inductive KindTag where
  | Dense
  | Sparse
  | PermutationStorage
  | MatrixXpr
  | ArrayXpr
  deriving DecidableEq

/-- The part of `NumTraits<Scalar>` that Product.h reads: the flag `IsComplex`
chosen by `AdjointReturnType`, together with the scalar conjugation that
`internal::scalar_conjugate_op<Scalar>` applies. Both live outside Product.h
and are taken as parameters of the scalar type. -/
class NumTraits (R : Type) where
  /-- The flag `NumTraits<Scalar>::IsComplex`. -/
  IsComplex : Bool
  /-- The function applied by `scalar_conjugate_op<Scalar>`. -/
  conj : R → R

/-- The integers as a real scalar type: not complex, conjugation is the identity. -/
instance instNumTraitsInt : NumTraits Int where
  IsComplex := false
  conj := id

/-- The Gaussian integers as a complex scalar type with exact arithmetic. -/
instance instNumTraitsGaussianInt : NumTraits GaussianInt where
  IsComplex := true
  conj := star

/-- Expression nodes that occur as operands and results in Product.h.
`Matrix` is a dense matrix with its runtime shape and coefficients,
`PermutationMatrix` a permutation given by its index vector, `Transpose` the
node `Transpose<const X>` (also `ConstTransposeReturnType`), `Inverse` the node
`InverseReturnType` of a permutation, `Conjugate` the node
`CwiseUnaryOp<scalar_conjugate_op<Scalar>, X>`, and `Product` a product
expression used as an operand. -/
inductive Xpr (R : Type) where
  | Matrix (rows cols : Nat) (data : Nat → Nat → R)
  | PermutationMatrix (size : Nat) (indices : Nat → Nat)
  | Transpose (m_matrix : Xpr R)
  | Inverse (m_xpr : Xpr R)
  | Conjugate (m_xpr : Xpr R)
  | Product (m_lhs m_rhs : Xpr R) (option : ProductOption)

/-- Runtime shape `(rows(), cols())` of an expression. A product reports
`m_lhs.rows()` and `m_rhs.cols()` (Product.h, `rows()` and `cols()`); a
transpose or an inverse of an r x c operand is c x r; a coefficient-wise
operation keeps the shape of its operand. -/
def Xpr.shape {R : Type} : Xpr R → Nat × Nat
  | .Matrix r c _ => (r, c)
  | .PermutationMatrix n _ => (n, n)
  | .Transpose x => (x.shape.2, x.shape.1)
  | .Inverse x => (x.shape.2, x.shape.1)
  | .Conjugate x => x.shape
  | .Product l r _ => (l.shape.1, r.shape.2)

/-- The accessor `rows()` of an operand. -/
def Xpr.rows {R : Type} (x : Xpr R) : Nat := x.shape.1

/-- The accessor `cols()` of an operand. -/
def Xpr.cols {R : Type} (x : Xpr R) : Nat := x.shape.2

/-- Modelled from the spec: the storage-kind promotion
`internal::product_promote_storage_type` (not in Product.h), "Dense×Dense→Dense,
Dense×Permutation→Dense, Sparse×Sparse→Sparse": equal kinds are kept, a
permutation operand leaves the kind of the other operand, and a dense operand
makes the result dense. -/
def product_promote_storage_type (a b : KindTag) : KindTag :=
  if a = b then a
  else if a = KindTag.PermutationStorage then b
  else if b = KindTag.PermutationStorage then a
  else KindTag.Dense

/-- Modelled from the spec: `traits<X>::StorageKind` of an operand (the traits
of the operand types are not in Product.h). A dense matrix has storage kind
`Dense`, a permutation `PermutationStorage`; transpose, inverse and conjugate
inherit the kind of their operand; a product has the promoted kind
(`traits<Product>::StorageKind`, Product.h lines 34-35). -/
def Xpr.StorageKind {R : Type} : Xpr R → KindTag
  | .Matrix _ _ _ => KindTag.Dense
  | .PermutationMatrix _ _ => KindTag.PermutationStorage
  | .Transpose x => x.StorageKind
  | .Inverse x => x.StorageKind
  | .Conjugate x => x.StorageKind
  | .Product l r _ => product_promote_storage_type l.StorageKind r.StorageKind

/-- Modelled from the spec: the coefficient `(i, j)` that the evaluator of an
expression yields (the evaluators are not in Product.h), over exact arithmetic.
A product coefficient is "the sum over the inner index of lhs(i,l) * rhs(l,j)";
a transpose swaps the indices; a permutation matrix has a one at
`(indices j, j)`; "transposing a permutation matrix equals inverting the
permutation", so an inverse reads the permutation at swapped indices; a
conjugate applies the scalar conjugation to each coefficient. -/
def Xpr.coeff {R : Type} [CommRing R] [NumTraits R] : Xpr R → Nat → Nat → R
  | .Matrix _ _ d, i, j => d i j
  | .PermutationMatrix _ idx, i, j => if idx j = i then 1 else 0
  | .Transpose x, i, j => x.coeff j i
  | .Inverse x, i, j => x.coeff j i
  | .Conjugate x, i, j => NumTraits.conj (x.coeff i j)
  | .Product l r _, i, j => ∑ k in Finset.range l.cols, l.coeff i k * r.coeff k j

/-- The class `Product<Lhs, Rhs, Option>`: the two stored operands `m_lhs`,
`m_rhs` and the evaluation option. -/
structure Product (R : Type) where
  m_lhs : Xpr R
  m_rhs : Xpr R
  option : ProductOption

/-- The constructor `Product(const Lhs& lhs, const Rhs& rhs)`: it stores the
operands and asserts `lhs.cols() == rhs.rows() && "..." && "..."` (the two
string literals are non-null, hence true). A failed `eigen_assert` aborts the
construction: no value is produced. -/
def Product.ctor {R : Type} (lhs rhs : Xpr R) (opt : ProductOption) : Option (Product R) :=
  if (lhs.cols == rhs.rows && true && true) = true then
    some { m_lhs := lhs, m_rhs := rhs, option := opt }
  else none

/-- The method `rows()`: returns `m_lhs.rows()`. -/
def Product.rows {R : Type} (p : Product R) : Nat := p.m_lhs.rows

/-- The method `cols()`: returns `m_rhs.cols()`. -/
def Product.cols {R : Type} (p : Product R) : Nat := p.m_rhs.cols

/-- The method `lhs()`: returns `m_lhs`. -/
def Product.lhs {R : Type} (p : Product R) : Xpr R := p.m_lhs

/-- The method `rhs()`: returns `m_rhs`. -/
def Product.rhs {R : Type} (p : Product R) : Xpr R := p.m_rhs

/-- A product object seen as an expression node (`derived()` used as the
operand of a wrapper such as `Transpose<const Derived>`). -/
def Product.toXpr {R : Type} (p : Product R) : Xpr R :=
  Xpr.Product p.m_lhs p.m_rhs p.option

/-! ## The transpose helper -/

/-- The primary template `product_transpose_helper<Derived, LhsKind, RhsKind>`:
"by default, don't optimize the transposed product"; `run` returns
`Transpose<const Derived>(derived)`. -/
def product_transpose_helper_default.run {R : Type} (derived : Product R) : Xpr R :=
  Xpr.Transpose derived.toXpr

/-- The qualified name `Derived::Option` that the three specialisations use
as the option of their `Transpose` product type (Product.h lines 70, 80, 90).
`Option` is a template parameter of `Product` (line 112); the class body
(lines 118-158) declares `Lhs`, `Rhs`, `Base`, `LhsNested`, `RhsNested`,
`TransposeReturnType`, `AdjointReturnType` and the methods, and no member named
`Option`. The lookup therefore finds nothing. -/
def Product.member_Option {R : Type} (_derived : Product R) : Option ProductOption :=
  none

/-- Modelled from the spec: `PermutationBase<X>::InverseReturnType` applied to
an operand (the permutation classes are not in Product.h): "its transpose is
defined to be its inverse permutation", a wrapper that exists for a
permutation operand only. -/
def PermutationBase.inverse {R : Type} : Xpr R → Option (Xpr R)
  | Xpr.PermutationMatrix n idx => some (Xpr.Inverse (Xpr.PermutationMatrix n idx))
  | _ => none

/-- The specialisation `product_transpose_helper<Derived, MatrixXpr, MatrixXpr>`
("return rhs.transpose() * lhs.transpose()"): `run` constructs
`Transpose(RhsTranspose(derived.rhs()), LhsTranspose(derived.lhs()))` where both
wrappers are `ConstTransposeReturnType` and `Transpose` is
`Product<RhsTranspose, LhsTranspose, Derived::Option>`. The product type needs
the member `Derived::Option`; without it the specialisation cannot be
instantiated and no product is returned. -/
def product_transpose_helper_MatrixXpr_MatrixXpr.run {R : Type} (derived : Product R) :
    Option (Product R) :=
  (Product.member_Option derived).bind fun opt =>
    Product.ctor (Xpr.Transpose derived.rhs) (Xpr.Transpose derived.lhs) opt

/-- The specialisation
`product_transpose_helper<Derived, PermutationStorage, MatrixXpr>`
("return rhs.transpose() * lhs.inverse()"): `LhsTranspose` is the
`InverseReturnType` of the permutation, `RhsTranspose` the
`ConstTransposeReturnType` of the matrix, and `Transpose` is
`Product<RhsTranspose, LhsTranspose, Derived::Option>`. The source declares
this `run` without a return type (line 81) and its product type needs the
member `Derived::Option`: the specialisation cannot be instantiated and no
product is returned. -/
def product_transpose_helper_PermutationStorage_MatrixXpr.run {R : Type} (derived : Product R) :
    Option (Product R) :=
  (Product.member_Option derived).bind fun opt =>
    (PermutationBase.inverse derived.lhs).bind fun lhsInverse =>
      Product.ctor (Xpr.Transpose derived.rhs) lhsInverse opt

/-- The specialisation
`product_transpose_helper<Derived, MatrixXpr, PermutationStorage>`
("return rhs.inverse() * lhs.transpose()"): `LhsTranspose` is the
`ConstTransposeReturnType` of the matrix, `RhsTranspose` the
`InverseReturnType` of the permutation, and `Transpose` is
`Product<RhsTranspose, LhsTranspose, Derived::Option>`. The product type needs
the member `Derived::Option`; without it the specialisation cannot be
instantiated and no product is returned. -/
def product_transpose_helper_MatrixXpr_PermutationStorage.run {R : Type} (derived : Product R) :
    Option (Product R) :=
  (Product.member_Option derived).bind fun opt =>
    (PermutationBase.inverse derived.rhs).bind fun rhsInverse =>
      Product.ctor rhsInverse (Xpr.Transpose derived.lhs) opt

/-- Template selection of `product_transpose_helper<Derived, LhsKind, RhsKind>`:
a specialisation is used exactly when the two kind arguments are the tags it
names, otherwise the primary template is used. -/
def product_transpose_helper.run {R : Type} (LhsKind RhsKind : KindTag) (derived : Product R) :
    Option (Xpr R) :=
  match LhsKind, RhsKind with
  | KindTag.MatrixXpr, KindTag.MatrixXpr =>
      (product_transpose_helper_MatrixXpr_MatrixXpr.run derived).map Product.toXpr
  | KindTag.PermutationStorage, KindTag.MatrixXpr =>
      (product_transpose_helper_PermutationStorage_MatrixXpr.run derived).map Product.toXpr
  | KindTag.MatrixXpr, KindTag.PermutationStorage =>
      (product_transpose_helper_MatrixXpr_PermutationStorage.run derived).map Product.toXpr
  | _, _ => some (product_transpose_helper_default.run derived)

/-- The method `transpose()`: `product_transpose_helper<Product>::run(*this)`,
where the defaulted kind arguments are
`traits<typename Derived::Lhs>::StorageKind` and
`traits<typename Derived::Rhs>::StorageKind`. -/
def Product.transpose {R : Type} (p : Product R) : Option (Xpr R) :=
  product_transpose_helper.run p.lhs.StorageKind p.rhs.StorageKind p

/-- The method `adjoint()`: `AdjointReturnType(transpose())`, where
`AdjointReturnType` is `CwiseUnaryOp<scalar_conjugate_op<Scalar>, TransposeReturnType>`
when `NumTraits<Scalar>::IsComplex` and `TransposeReturnType` otherwise. -/
def Product.adjoint {R : Type} [NumTraits R] (p : Product R) : Option (Xpr R) :=
  p.transpose.map fun t => if NumTraits.IsComplex R = true then Xpr.Conjugate t else t

/-! ## Inner products and coefficient access -/

/-- The call `internal::evaluator<ProductXpr>(derived()).coeff(row, col)`: the
coefficient of the product expression (see `Xpr.coeff` for the evaluator). -/
def evaluator.coeff {R : Type} [CommRing R] [NumTraits R] (xpr : Product R) (row col : Nat) : R :=
  xpr.toXpr.coeff row col

/-- The conversion `operator const Scalar()` of
`dense_product_base<Lhs, Rhs, Option, InnerProduct>`:
`internal::evaluator<ProductXpr>(derived()).coeff(0, 0)`. -/
def dense_product_base.toScalar {R : Type} [CommRing R] [NumTraits R] (derived : Product R) : R :=
  evaluator.coeff derived 0 0

/-- Modelled from the spec: `MatrixBase::adjoint()` of a plain operand (not in
Product.h), the operand-level counterpart of `Product::adjoint`: "a conjugation
wrapper when the scalar type is complex, and ... the identity-equivalent of
transpose for real scalars". -/
def MatrixBase.adjoint {R : Type} [NumTraits R] (x : Xpr R) : Xpr R :=
  if NumTraits.IsComplex R = true then Xpr.Conjugate (Xpr.Transpose x) else Xpr.Transpose x

/-- Modelled from the spec: the constant `Dynamic` (declared outside Product.h),
the value of a dimension that is not fixed at compile time; Eigen uses -1. -/
def Dynamic : Int := -1

/-- The enumerator `IsOneByOne` of `ProductImpl<Lhs, Rhs, Option, Dense>`:
`(RowsAtCompileTime == 1 || RowsAtCompileTime == Dynamic) &&
(ColsAtCompileTime == 1 || ColsAtCompileTime == Dynamic)`. -/
def ProductImpl.IsOneByOne (RowsAtCompileTime ColsAtCompileTime : Int) : Bool :=
  (RowsAtCompileTime == 1 || RowsAtCompileTime == Dynamic) &&
    (ColsAtCompileTime == 1 || ColsAtCompileTime == Dynamic)

/-- The enumerator `EnableCoeff`: `IsOneByOne || Option == LazyProduct`. -/
def ProductImpl.EnableCoeff (RowsAtCompileTime ColsAtCompileTime : Int)
    (opt : ProductOption) : Bool :=
  ProductImpl.IsOneByOne RowsAtCompileTime ColsAtCompileTime || opt == ProductOption.LazyProduct

/-- The condition of the runtime assertion of `coeff`:
`(Option == LazyProduct) || (this->rows() == 1 && this->cols() == 1)`. -/
def ProductImpl.runtimeCondition {R : Type} (p : Product R) : Bool :=
  (p.option == ProductOption.LazyProduct) || (p.rows == 1 && p.cols == 1)

/-- Outcome of a call of a coefficient accessor: rejected at compile time by
`EIGEN_STATIC_ASSERT`, stopped at run time by `eigen_assert`, or a value. -/
inductive CoeffOutcome (R : Type) where
  | staticAssertFailed
  | assertFailed
  | value (s : R)

/-- The method `coeff(Index row, Index col)` of
`ProductImpl<Lhs, Rhs, Option, Dense>`: the static assertion on `EnableCoeff`,
then the runtime assertion, then the coefficient of the evaluator. The
compile-time sizes are those of `traits<Product>`
(`LhsTraits::RowsAtCompileTime`, `RhsTraits::ColsAtCompileTime`). -/
def ProductImpl.coeff {R : Type} [CommRing R] [NumTraits R]
    (RowsAtCompileTime ColsAtCompileTime : Int) (p : Product R) (row col : Nat) :
    CoeffOutcome R :=
  if ProductImpl.EnableCoeff RowsAtCompileTime ColsAtCompileTime p.option = false then
    CoeffOutcome.staticAssertFailed
  else if ProductImpl.runtimeCondition p = false then CoeffOutcome.assertFailed
  else CoeffOutcome.value (evaluator.coeff p row col)

/-- The method `coeff(Index i)`: the same two assertions, then the
index-based coefficient of the evaluator, which is not in Product.h and is
taken as the parameter `evaluatorCoeffIndex`. -/
def ProductImpl.coeffIndex {R : Type} (evaluatorCoeffIndex : Product R → Nat → R)
    (RowsAtCompileTime ColsAtCompileTime : Int) (p : Product R) (i : Nat) :
    CoeffOutcome R :=
  if ProductImpl.EnableCoeff RowsAtCompileTime ColsAtCompileTime p.option = false then
    CoeffOutcome.staticAssertFailed
  else if ProductImpl.runtimeCondition p = false then CoeffOutcome.assertFailed
  else CoeffOutcome.value (evaluatorCoeffIndex p i)

/-- Agreement of a compile-time dimension with a runtime dimension: `Dynamic`
allows any runtime value, a fixed dimension equals it. -/
def shapeConsistent (atCompileTime : Int) (runtime : Nat) : Prop :=
  atCompileTime = Dynamic ∨ atCompileTime = (runtime : Int)

/-- Consistency of a compile-time dimension with a runtime dimension is decidable. -/
instance instDecidableShapeConsistent (atCompileTime : Int) (runtime : Nat) :
    Decidable (shapeConsistent atCompileTime runtime) :=
  inferInstanceAs (Decidable (atCompileTime = Dynamic ∨ atCompileTime = (runtime : Int)))

/-! ## The blocking-size lookup table (arch/NEON/BlockingSizesLookupTables.h) -/

/-- The constant `BlockingSizesLookupTable<float, float>::BaseSize`. -/
def BlockingSizesLookupTable_float_float.BaseSize : Nat := 16

/-- The constant `BlockingSizesLookupTable<float, float>::NumSizes`. -/
def BlockingSizesLookupTable_float_float.NumSizes : Nat := 8

/-- The array `data[512]` returned by `BlockingSizesLookupTable<float, float>::Data()`. -/
def BlockingSizesLookupTable_float_float.Data : List Nat := [
    0x444, 0x445, 0x446, 0x447, 0x448, 0x449, 0x447, 0x447,
    0x454, 0x455, 0x456, 0x457, 0x458, 0x459, 0x45a, 0x457,
    0x464, 0x465, 0x466, 0x467, 0x468, 0x469, 0x46a, 0x467,
    0x474, 0x475, 0x476, 0x467, 0x478, 0x479, 0x477, 0x478,
    0x474, 0x475, 0x476, 0x477, 0x478, 0x476, 0x476, 0x476,
    0x474, 0x475, 0x476, 0x477, 0x478, 0x479, 0x496, 0x496,
    0x474, 0x475, 0x476, 0x4a6, 0x4a5, 0x4a6, 0x4a5, 0x4a6,
    0x474, 0x475, 0x466, 0x4a6, 0x4a6, 0x4a6, 0x496, 0x4a6,
    0x544, 0x545, 0x546, 0x547, 0x548, 0x549, 0x54a, 0x54b,
    0x554, 0x555, 0x556, 0x557, 0x558, 0x559, 0x55a, 0x55b,
    0x564, 0x565, 0x566, 0x567, 0x568, 0x569, 0x56a, 0x56b,
    0x564, 0x565, 0x566, 0x567, 0x568, 0x569, 0x56a, 0x576,
    0x564, 0x565, 0x566, 0x567, 0x568, 0x569, 0x56a, 0x587,
    0x564, 0x565, 0x566, 0x567, 0x596, 0x596, 0x597, 0x596,
    0x564, 0x565, 0x566, 0x5a5, 0x5a6, 0x5a6, 0x596, 0x596,
    0x564, 0x565, 0x566, 0x596, 0x5a6, 0x596, 0x5a6, 0x5a6,
    0x644, 0x645, 0x646, 0x647, 0x648, 0x649, 0x64a, 0x64b,
    0x644, 0x655, 0x656, 0x657, 0x658, 0x659, 0x65a, 0x65b,
    0x664, 0x665, 0x666, 0x667, 0x668, 0x669, 0x65a, 0x667,
    0x674, 0x665, 0x666, 0x677, 0x678, 0x679, 0x67a, 0x675,
    0x684, 0x685, 0x686, 0x687, 0x678, 0x688, 0x687, 0x686,
    0x664, 0x665, 0x666, 0x657, 0x697, 0x696, 0x696, 0x697,
    0x664, 0x655, 0x686, 0x696, 0x685, 0x6a6, 0x686, 0x686,
    0x684, 0x675, 0x686, 0x685, 0x686, 0x696, 0x696, 0x696,
    0x744, 0x745, 0x746, 0x747, 0x748, 0x749, 0x74a, 0x746,
    0x754, 0x755, 0x756, 0x757, 0x758, 0x759, 0x75a, 0x757,
    0x764, 0x755, 0x756, 0x747, 0x768, 0x759, 0x75a, 0x767,
    0x744, 0x765, 0x766, 0x767, 0x768, 0x759, 0x778, 0x777,
    0x744, 0x745, 0x766, 0x767, 0x788, 0x788, 0x786, 0x788,
    0x754, 0x755, 0x766, 0x787, 0x787, 0x796, 0x787, 0x797,
    0x684, 0x695, 0x696, 0x6a5, 0x786, 0x786, 0x795, 0x796,
    0x684, 0x695, 0x686, 0x6a6, 0x786, 0x796, 0x786, 0x796,
    0x844, 0x845, 0x846, 0x847, 0x848, 0x849, 0x847, 0x848,
    0x844, 0x845, 0x846, 0x847, 0x848, 0x849, 0x857, 0x858,
    0x844, 0x865, 0x846, 0x847, 0x868, 0x849, 0x866, 0x867,
    0x844, 0x865, 0x846, 0x847, 0x878, 0x849, 0x877, 0x877,
    0x844, 0x845, 0x846, 0x867, 0x885, 0x887, 0x885, 0x887,
    0x784, 0x785, 0x786, 0x877, 0x885, 0x885, 0x896, 0x896,
    0x684, 0x695, 0x696, 0x885, 0x896, 0x885, 0x895, 0x895,
    0x694, 0x685, 0x6a6, 0x885, 0x885, 0x886, 0x896, 0x896,
    0x944, 0x945, 0x946, 0x947, 0x948, 0x847, 0x848, 0x848,
    0x944, 0x855, 0x756, 0x947, 0x858, 0x857, 0x858, 0x858,
    0x944, 0x945, 0x946, 0x867, 0x948, 0x866, 0x866, 0x867,
    0x944, 0x775, 0x976, 0x877, 0x877, 0x878, 0x877, 0x877,
    0x784, 0x785, 0x886, 0x887, 0x886, 0x986, 0x887, 0x887,
    0x784, 0x785, 0x786, 0x796, 0x885, 0x897, 0x896, 0x897,
    0x684, 0x695, 0x6a4, 0x886, 0x886, 0x896, 0x896, 0x896,
    0x6a4, 0x6a5, 0x696, 0x886, 0x886, 0x896, 0x896, 0x896,
    0x844, 0x845, 0x846, 0x847, 0x847, 0x847, 0x847, 0x847,
    0x854, 0x855, 0x856, 0x857, 0x857, 0x858, 0x857, 0x857,
    0x864, 0x865, 0x866, 0x867, 0x867, 0x866, 0x867, 0x867,
    0x774, 0x775, 0x876, 0x877, 0x877, 0x877, 0x877, 0x877,
    0x784, 0x785, 0x886, 0x887, 0x887, 0x887, 0x887, 0x887,
    0x784, 0x785, 0x786, 0x787, 0x887, 0x896, 0x897, 0x897,
    0x684, 0x6a5, 0x696, 0x886, 0x896, 0x896, 0x896, 0x896,
    0x694, 0x6a5, 0x6a5, 0x886, 0xa68, 0x896, 0x896, 0x896,
    0x844, 0x845, 0x846, 0x846, 0x847, 0x945, 0x847, 0x946,
    0x854, 0xb55, 0x856, 0x857, 0x857, 0x856, 0x857, 0x857,
    0x864, 0x865, 0x866, 0x867, 0x867, 0x867, 0x867, 0x867,
    0x864, 0x875, 0x876, 0x877, 0x877, 0x877, 0x877, 0x877,
    0x784, 0x885, 0x886, 0x886, 0x886, 0x887, 0x887, 0x887,
    0x784, 0x785, 0x786, 0x786, 0x886, 0x897, 0x897, 0x897,
    0x684, 0x695, 0x696, 0x886, 0x896, 0x896, 0x896, 0x896,
    0x684, 0x6a5, 0x696, 0xb57, 0x896, 0x896, 0x896, 0x896
  ]

/-- Modelled from the spec: the bucket of a dimension `d` used to index the
table (the lookup routine is not in the table header), "log2-scaled
categories, not raw sizes":
`floor(log2(clamp(d, BaseSize, BaseSize * 2^(NumSizes-1)))) - log2(BaseSize)`. -/
def floor_log2_clamp (BaseSize NumSizes d : Nat) : Nat :=
  Nat.log2 (min (max d BaseSize) (BaseSize * 2 ^ (NumSizes - 1))) - Nat.log2 BaseSize

/-- Modelled from the spec: the table entry selected for the dimensions
`k`, `m`, `n`: `Data()[n_idx + NumSizes * (m_idx + NumSizes * k_idx)]`, each
index being the bucket of its dimension. -/
def BlockingSizesLookupTable_float_float.entry (k m n : Nat) : Nat :=
  let k_idx := floor_log2_clamp BlockingSizesLookupTable_float_float.BaseSize
    BlockingSizesLookupTable_float_float.NumSizes k
  let m_idx := floor_log2_clamp BlockingSizesLookupTable_float_float.BaseSize
    BlockingSizesLookupTable_float_float.NumSizes m
  let n_idx := floor_log2_clamp BlockingSizesLookupTable_float_float.BaseSize
    BlockingSizesLookupTable_float_float.NumSizes n
  BlockingSizesLookupTable_float_float.Data.getD
    (n_idx + BlockingSizesLookupTable_float_float.NumSizes *
      (m_idx + BlockingSizesLookupTable_float_float.NumSizes * k_idx)) 0

/-- The 4-bit field of a table entry for the depth `k`: bits 8..11. -/
def BlockingSizesLookupTable_float_float.kField (e : Nat) : Nat := (e &&& 0xf00) >>> 8

/-- The 4-bit field of a table entry for the rows `m`: bits 4..7. -/
def BlockingSizesLookupTable_float_float.mField (e : Nat) : Nat := (e &&& 0x0f0) >>> 4

/-- The 4-bit field of a table entry for the columns `n`: bits 0..3. -/
def BlockingSizesLookupTable_float_float.nField (e : Nat) : Nat := e &&& 0x00f

/-- Modelled from the spec: the block sizes `(kc, mc, nc)` obtained from the
table for the dimensions `k`, `m`, `n` (the lookup routine is not in the table
header): "2^(bits 8..11) for K, 2^(bits 4..7) for M and 2^(bits 0..3) for N"
of the selected entry, each "clamped to the actual matrix dimensions (never
block larger than the matrix itself)". -/
def BlockingSizesLookupTable_float_float.blockSizes (k m n : Nat) : Nat × Nat × Nat :=
  let e := BlockingSizesLookupTable_float_float.entry k m n
  (min k (2 ^ BlockingSizesLookupTable_float_float.kField e),
   min m (2 ^ BlockingSizesLookupTable_float_float.mField e),
   min n (2 ^ BlockingSizesLookupTable_float_float.nField e))

/-- Executable check of the entry `e` stored at table position
`idx = n_idx + NumSizes * (m_idx + NumSizes * k_idx)`: it fits in twelve bits
and each field lies between 4 and 4 plus the bucket index of its dimension. -/
def BlockingSizesLookupTable_float_float.fieldsInRange (idx e : Nat) : Bool :=
  decide (e < 0x1000) &&
  decide (4 ≤ BlockingSizesLookupTable_float_float.kField e) &&
  decide (BlockingSizesLookupTable_float_float.kField e ≤ 4 + idx / 64) &&
  decide (4 ≤ BlockingSizesLookupTable_float_float.mField e) &&
  decide (BlockingSizesLookupTable_float_float.mField e ≤ 4 + idx / 8 % 8) &&
  decide (4 ≤ BlockingSizesLookupTable_float_float.nField e) &&
  decide (BlockingSizesLookupTable_float_float.nField e ≤ 4 + idx % 8)

/-- Executable check of a run of consecutive entries starting at position `idx`. -/
def BlockingSizesLookupTable_float_float.allInRange : List Nat → Nat → Bool
  | [], _ => true
  | e :: es, idx =>
    BlockingSizesLookupTable_float_float.fieldsInRange idx e &&
      BlockingSizesLookupTable_float_float.allInRange es (idx + 1)

/-! ## Concrete operands used in the examples -/

/-- A 2 x 3 integer matrix with coefficient `i + j` at `(i, j)`. -/
def exampleA : Xpr Int := Xpr.Matrix 2 3 fun i j => ((i + j : Nat) : Int)

/-- A 3 x 4 integer matrix with coefficient `i * j + 1` at `(i, j)`. -/
def exampleB : Xpr Int := Xpr.Matrix 3 4 fun i j => ((i * j + 1 : Nat) : Int)

/-- The permutation matrix of size 3 with index vector `(1, 2, 0)`. -/
def exampleP : Xpr Int := Xpr.PermutationMatrix 3 fun j => (j + 1) % 3

/-- The column vector `v = (1, 2, 3)` of the dot-product example. -/
def exampleV : Xpr Int := Xpr.Matrix 3 1 fun i _ => [1, 2, 3].getD i 0

/-- The column vector `w = (0, 1, 2)` of the dot-product example. -/
def exampleW : Xpr Int := Xpr.Matrix 3 1 fun i _ => [0, 1, 2].getD i 0

/-- The product object of `exampleA` and `exampleB` with the default option. -/
def exampleAB : Product Int :=
  { m_lhs := exampleA, m_rhs := exampleB, option := ProductOption.DefaultProduct }

/-- The inner product object of the transposed `exampleV` and `exampleW`. -/
def exampleVW : Product Int :=
  { m_lhs := Xpr.Transpose exampleV, m_rhs := exampleW, option := ProductOption.DefaultProduct }

/-- A 2 x 2 matrix over the Gaussian integers with coefficient `i + j * I` at `(i, j)`. -/
def exampleZ : Xpr GaussianInt :=
  Xpr.Matrix 2 2 fun i j => { re := (i : Int), im := (j : Int) }

/-- The lazy product object of `exampleZ` with itself. -/
def exampleZZ : Product GaussianInt :=
  { m_lhs := exampleZ, m_rhs := exampleZ, option := ProductOption.LazyProduct }

/-- C1: constructing `Product(lhs, rhs)` produces a value if and only if
`lhs.cols() == rhs.rows()`, for each of the three options: with a mismatch no
product is produced, and with conforming operands the product holding exactly
these operands and this option is produced. -/
theorem Product.ctor_succeeds_iff {R : Type} (lhs rhs : Xpr R) (opt : ProductOption) :
    ((∃ p, Product.ctor lhs rhs opt = some p) ↔ lhs.cols = rhs.rows) ∧
    (lhs.cols ≠ rhs.rows → Product.ctor lhs rhs opt = none) ∧
    (lhs.cols = rhs.rows →
      Product.ctor lhs rhs opt = some { m_lhs := lhs, m_rhs := rhs, option := opt }) := by
  unfold Product.ctor
  by_cases h : lhs.cols = rhs.rows <;> simp [h]

/-- C2: for every successfully constructed product `p = Product(lhs, rhs)`,
`p.rows()` is `lhs.rows()`, `p.cols()` is `rhs.cols()`, and `p.lhs()`, `p.rhs()`
are the operands it was built from; the shape reported by the product node is
the pair of these two operand dimensions, whatever the coefficients are. -/
theorem Product.shape_of_ctor {R : Type} (lhs rhs : Xpr R) (opt : ProductOption)
    (p : Product R) (h : Product.ctor lhs rhs opt = some p) :
    p.rows = lhs.rows ∧ p.cols = rhs.cols ∧ p.lhs = lhs ∧ p.rhs = rhs ∧
    p.toXpr.shape = (lhs.rows, rhs.cols) := by
  unfold Product.ctor at h
  split at h
  · cases h
    exact ⟨rfl, rfl, rfl, rfl, rfl⟩
  · cases h

/-- Witness for C2: a 2 x 3 matrix times a 3 x 4 matrix gives a product that
reports 2 rows and 4 columns and returns its operands. -/
theorem Product.shape_of_ctor_witness :
    Product.ctor exampleA exampleB ProductOption.DefaultProduct =
      some { m_lhs := exampleA, m_rhs := exampleB, option := ProductOption.DefaultProduct } ∧
    Product.rows { m_lhs := exampleA, m_rhs := exampleB,
                   option := ProductOption.DefaultProduct } = 2 ∧
    Product.cols { m_lhs := exampleA, m_rhs := exampleB,
                   option := ProductOption.DefaultProduct } = 4 :=
  have h := Product.shape_of_ctor exampleA exampleB ProductOption.DefaultProduct
    { m_lhs := exampleA, m_rhs := exampleB, option := ProductOption.DefaultProduct } rfl
  ⟨rfl, h.1, h.2.1⟩

/-! ### Selection of the transpose helper -/

/-- The storage kind of an operand is `Dense` or `PermutationStorage`; in
particular it is never the expression-kind tag `MatrixXpr`. -/
theorem Xpr.StorageKind_cases {R : Type} (x : Xpr R) :
    x.StorageKind = KindTag.Dense ∨ x.StorageKind = KindTag.PermutationStorage := by
  induction x with
  | Matrix r c d => exact Or.inl rfl
  | PermutationMatrix n idx => exact Or.inr rfl
  | Transpose x ih => exact ih
  | Inverse x ih => exact ih
  | Conjugate x ih => exact ih
  | Product l r o ihl ihr =>
    simp only [Xpr.StorageKind, product_promote_storage_type]
    rcases ihl with hl | hl <;> rcases ihr with hr | hr <;> simp [hl, hr]

/-- With the kind arguments taken from the storage kinds of the operands, the
primary template of the helper is the one selected: `transpose()` returns the
generic node `Transpose<const Product>`. -/
theorem Product.transpose_eq_default {R : Type} (p : Product R) :
    p.transpose = some (Xpr.Transpose p.toXpr) := by
  unfold Product.transpose product_transpose_helper.run product_transpose_helper_default.run
  rcases Xpr.StorageKind_cases p.lhs with hl | hl <;>
    rcases Xpr.StorageKind_cases p.rhs with hr | hr <;> simp [hl, hr]

/-- A conforming pair of operands is accepted by the constructor. -/
theorem Product.ctor_of_conforming {R : Type} (lhs rhs : Xpr R) (opt : ProductOption)
    (h : lhs.cols = rhs.rows) :
    Product.ctor lhs rhs opt = some { m_lhs := lhs, m_rhs := rhs, option := opt } := by
  simp [Product.ctor, h]

/-- The coefficient of the reversed product of transposes at `(j, i)` is the
coefficient of the product at `(i, j)`, for conforming operands. -/
theorem Xpr.coeff_reversed_transposes {R : Type} [CommRing R] [NumTraits R]
    (A B : Xpr R) (o o2 : ProductOption) (h : A.cols = B.rows) (i j : Nat) :
    (Xpr.Product (Xpr.Transpose B) (Xpr.Transpose A) o2).coeff j i =
      (Xpr.Product A B o).coeff i j := by
  have hc : (Xpr.Transpose B).cols = A.cols := by
    simp only [Xpr.cols, Xpr.rows, Xpr.shape] at h ⊢
    exact h.symm
  simp only [Xpr.coeff, hc]
  exact Finset.sum_congr rfl fun l _ => mul_comm _ _

/-- C3: for all conforming dense operands `A` (m x k) and `B` (k x n), the
product is constructed, `transpose()` returns an expression of shape n x m,
and its coefficient `(j, i)` is the sum over the inner index `l` of
`A(i,l) * B(l,j)`, the coefficient `(i, j)` of the product, which is also the
coefficient `(j, i)` of the product `B.transpose() * A.transpose()`. -/
theorem Product.transpose_coeff {R : Type} [CommRing R] [NumTraits R]
    (A B : Xpr R) (opt : ProductOption)
    (hA : A.StorageKind = KindTag.Dense) (hB : B.StorageKind = KindTag.Dense)
    (h : A.cols = B.rows) :
    ∃ p t, Product.ctor A B opt = some p ∧ p.transpose = some t ∧
      t.rows = B.cols ∧ t.cols = A.rows ∧
      ∀ i j, t.coeff j i = ∑ l in Finset.range A.cols, A.coeff i l * B.coeff l j ∧
        t.coeff j i = p.toXpr.coeff i j ∧
        t.coeff j i = (Xpr.Product (Xpr.Transpose B) (Xpr.Transpose A) opt).coeff j i := by
  refine ⟨{ m_lhs := A, m_rhs := B, option := opt }, Xpr.Transpose (Xpr.Product A B opt),
    Product.ctor_of_conforming A B opt h, ?_, rfl, rfl, ?_⟩
  · unfold Product.transpose product_transpose_helper.run
    simp [Product.lhs, Product.rhs, hA, hB, product_transpose_helper_default.run,
      Product.toXpr]
  · intro i j
    refine ⟨by simp [Xpr.coeff], by simp [Xpr.coeff, Product.toXpr], ?_⟩
    rw [Xpr.coeff_reversed_transposes A B opt opt h i j]
    simp [Xpr.coeff]

/-- Witness for C3: the 2 x 3 and 3 x 4 example matrices; coefficient `(3, 1)`
of the transposed product is `1*1 + 2*4 + 3*7 = 30`. -/
theorem Product.transpose_coeff_witness :
    exampleA.cols = exampleB.rows ∧
    ∃ p t, Product.ctor exampleA exampleB ProductOption.LazyProduct = some p ∧
      p.transpose = some t ∧ t.rows = 4 ∧ t.cols = 2 ∧ t.coeff 3 1 = 30 := by
  obtain ⟨p, t, hp, ht, hr, hc, hco⟩ :=
    Product.transpose_coeff exampleA exampleB ProductOption.LazyProduct rfl rfl rfl
  refine ⟨rfl, p, t, hp, ht, hr, hc, ?_⟩
  rw [(hco 1 3).1]
  simp [exampleA, exampleB, Xpr.coeff, Xpr.cols, Xpr.shape, Finset.sum_range_succ]

/-- C4: a product of two dense operands (here 2 x 3 times 3 x 4, storage kind
`Dense` on both sides) evaluated through `transpose()`: the helper selected
from the pair of storage kinds is the primary template, so the result is the
generic node `Transpose<const Product>` and not the product of the transposed
operands in reversed order, although the constructor accepts that product.
The specialisation written for the rewrite is keyed on the kind pair
`(MatrixXpr, MatrixXpr)`, and even there it returns no product. -/
theorem Product.transpose_dense_dense_example :
    ∃ p, Product.ctor exampleA exampleB ProductOption.DefaultProduct = some p ∧
      p.lhs.StorageKind = KindTag.Dense ∧ p.rhs.StorageKind = KindTag.Dense ∧
      p.transpose =
        some (Xpr.Transpose (Xpr.Product exampleA exampleB ProductOption.DefaultProduct)) ∧
      p.transpose ≠
        some (Xpr.Product (Xpr.Transpose exampleB) (Xpr.Transpose exampleA)
          ProductOption.DefaultProduct) ∧
      Product.ctor (Xpr.Transpose exampleB) (Xpr.Transpose exampleA)
          ProductOption.DefaultProduct =
        some { m_lhs := Xpr.Transpose exampleB, m_rhs := Xpr.Transpose exampleA,
               option := ProductOption.DefaultProduct } ∧
      product_transpose_helper.run KindTag.MatrixXpr KindTag.MatrixXpr p = none := by
  refine ⟨{ m_lhs := exampleA, m_rhs := exampleB, option := ProductOption.DefaultProduct },
    rfl, rfl, rfl, rfl, ?_, rfl, rfl⟩
  rw [Product.transpose_eq_default]
  simp [Product.toXpr]

/-- C5: products with exactly one permutation operand (`P * B` with `P` of
size 3 and `B` 3 x 4, and `A * P` with `A` 2 x 3) evaluated through
`transpose()`: the operand kinds are `(PermutationStorage, Dense)` and
`(Dense, PermutationStorage)`, the primary template is selected, and the
result is the generic node `Transpose<const Product>`, not the product of the
transposed matrix and the inverse permutation, although the constructor
accepts that product. The two specialisations written for these rewrites are
keyed on the matrix kind `MatrixXpr`, and even there they return no product. -/
theorem Product.transpose_permutation_example :
    (∃ p, Product.ctor exampleP exampleB ProductOption.DefaultProduct = some p ∧
      p.lhs.StorageKind = KindTag.PermutationStorage ∧ p.rhs.StorageKind = KindTag.Dense ∧
      p.transpose =
        some (Xpr.Transpose (Xpr.Product exampleP exampleB ProductOption.DefaultProduct)) ∧
      p.transpose ≠
        some (Xpr.Product (Xpr.Transpose exampleB) (Xpr.Inverse exampleP)
          ProductOption.DefaultProduct) ∧
      (PermutationBase.inverse exampleP).bind
          (fun lhsInverse => Product.ctor (Xpr.Transpose exampleB) lhsInverse
            ProductOption.DefaultProduct) =
        some { m_lhs := Xpr.Transpose exampleB, m_rhs := Xpr.Inverse exampleP,
               option := ProductOption.DefaultProduct } ∧
      product_transpose_helper.run KindTag.PermutationStorage KindTag.MatrixXpr p = none) ∧
    (∃ p, Product.ctor exampleA exampleP ProductOption.DefaultProduct = some p ∧
      p.lhs.StorageKind = KindTag.Dense ∧ p.rhs.StorageKind = KindTag.PermutationStorage ∧
      p.transpose =
        some (Xpr.Transpose (Xpr.Product exampleA exampleP ProductOption.DefaultProduct)) ∧
      p.transpose ≠
        some (Xpr.Product (Xpr.Inverse exampleP) (Xpr.Transpose exampleA)
          ProductOption.DefaultProduct) ∧
      (PermutationBase.inverse exampleP).bind
          (fun rhsInverse => Product.ctor rhsInverse (Xpr.Transpose exampleA)
            ProductOption.DefaultProduct) =
        some { m_lhs := Xpr.Inverse exampleP, m_rhs := Xpr.Transpose exampleA,
               option := ProductOption.DefaultProduct } ∧
      product_transpose_helper.run KindTag.MatrixXpr KindTag.PermutationStorage p = none) := by
  refine ⟨⟨{ m_lhs := exampleP, m_rhs := exampleB, option := ProductOption.DefaultProduct },
    rfl, rfl, rfl, rfl, ?_, rfl, rfl⟩,
    ⟨{ m_lhs := exampleA, m_rhs := exampleP, option := ProductOption.DefaultProduct },
    rfl, rfl, rfl, rfl, ?_, rfl, rfl⟩⟩
  · rw [Product.transpose_eq_default]
    simp [Product.toXpr]
  · rw [Product.transpose_eq_default]
    simp [Product.toXpr]

/-- C7: for every product `p`, `adjoint()` is built from `transpose()`: both
return a result, the result of `adjoint()` is the result of `transpose()`
itself when the scalar type is not complex and its `Conjugate` wrapper when it
is complex; accordingly coefficient `(j, i)` of `adjoint()` is coefficient
`(j, i)` of `transpose()` and coefficient `(i, j)` of the product for a real
scalar type, and the conjugate of these for a complex one. -/
theorem Product.adjoint_of_transpose {R : Type} [CommRing R] [NumTraits R] (p : Product R) :
    ∃ t a, p.transpose = some t ∧ p.adjoint = some a ∧
      a = (if NumTraits.IsComplex R = true then Xpr.Conjugate t else t) ∧
      ∀ i j,
        a.coeff j i =
          (if NumTraits.IsComplex R = true then NumTraits.conj (t.coeff j i)
           else t.coeff j i) ∧
        a.coeff j i =
          (if NumTraits.IsComplex R = true then NumTraits.conj (p.toXpr.coeff i j)
           else p.toXpr.coeff i j) := by
  refine ⟨Xpr.Transpose p.toXpr, _, Product.transpose_eq_default p, ?_, rfl, ?_⟩
  · simp [Product.adjoint, Product.transpose_eq_default p]
  · intro i j
    by_cases hc : NumTraits.IsComplex R = true <;> simp [hc, Xpr.coeff]

/-- Witness for C7 over the Gaussian integers: for the square of the 2 x 2
matrix with coefficient `i + j * I` at `(i, j)`, coefficient `(1, 0)` of the
product is `1 + I` and coefficient `(0, 1)` of `adjoint()` is `1 - I`. -/
theorem Product.adjoint_of_transpose_example :
    ∃ a, Product.adjoint exampleZZ = some a ∧
      a.coeff 0 1 = { re := 1, im := -1 } := by
  obtain ⟨t, a, _, ha, _, hco⟩ := Product.adjoint_of_transpose
    exampleZZ
  refine ⟨a, ha, ?_⟩
  rw [(hco 1 0).2]
  simp [NumTraits.IsComplex, NumTraits.conj, Product.toXpr, exampleZ, Xpr.coeff, Xpr.cols,
    Xpr.shape, Finset.sum_range_succ]
  decide

/-- C8: for real vectors `v`, `w` of the same length `n >= 1` (columns
`n x 1`), the product `v.adjoint() * w` is constructed, has shape 1 x 1, and
its conversion to a scalar is coefficient `(0, 0)` of the product, which is
the sum over `i < n` of `v_i * w_i`. -/
theorem dense_product_base.toScalar_inner {R : Type} [CommRing R] [NumTraits R]
    (hreal : NumTraits.IsComplex R = false) (n : Nat) (_hn : 1 ≤ n)
    (v w : Nat → Nat → R) (opt : ProductOption) :
    Product.ctor (MatrixBase.adjoint (Xpr.Matrix n 1 v)) (Xpr.Matrix n 1 w) opt =
      some { m_lhs := MatrixBase.adjoint (Xpr.Matrix n 1 v), m_rhs := Xpr.Matrix n 1 w,
             option := opt } ∧
    Product.rows { m_lhs := MatrixBase.adjoint (Xpr.Matrix n 1 v), m_rhs := Xpr.Matrix n 1 w,
                   option := opt } = 1 ∧
    Product.cols { m_lhs := MatrixBase.adjoint (Xpr.Matrix n 1 v), m_rhs := Xpr.Matrix n 1 w,
                   option := opt } = 1 ∧
    dense_product_base.toScalar
        { m_lhs := MatrixBase.adjoint (Xpr.Matrix n 1 v), m_rhs := Xpr.Matrix n 1 w,
          option := opt } =
      evaluator.coeff
        { m_lhs := MatrixBase.adjoint (Xpr.Matrix n 1 v), m_rhs := Xpr.Matrix n 1 w,
          option := opt } 0 0 ∧
    dense_product_base.toScalar
        { m_lhs := MatrixBase.adjoint (Xpr.Matrix n 1 v), m_rhs := Xpr.Matrix n 1 w,
          option := opt } =
      ∑ i in Finset.range n, v i 0 * w i 0 := by
  have hadj : MatrixBase.adjoint (Xpr.Matrix n 1 v) = Xpr.Transpose (Xpr.Matrix n 1 v) := by
    simp [MatrixBase.adjoint, hreal]
  rw [hadj]
  refine ⟨Product.ctor_of_conforming _ _ _ rfl, rfl, rfl, rfl, ?_⟩
  simp [dense_product_base.toScalar, evaluator.coeff, Product.toXpr, Xpr.coeff, Xpr.cols,
    Xpr.shape]

/-- Witness for C8: `v = (1, 2, 3)`, `w = (0, 1, 2)` gives 8, and
`r = c = (1, 2, 3)` gives 14. -/
theorem dense_product_base.toScalar_inner_witness :
    (1 ≤ 3) ∧
    dense_product_base.toScalar
      { m_lhs := MatrixBase.adjoint exampleV, m_rhs := exampleW,
        option := ProductOption.DefaultProduct } = 8 ∧
    dense_product_base.toScalar
      { m_lhs := MatrixBase.adjoint exampleV, m_rhs := exampleV,
        option := ProductOption.DefaultProduct } = 14 := by
  refine ⟨by decide, ?_, ?_⟩
  · have h := (dense_product_base.toScalar_inner (R := Int) rfl 3 (by decide)
      (fun i _ => [1, 2, 3].getD i 0) (fun i _ => [0, 1, 2].getD i 0)
      ProductOption.DefaultProduct).2.2.2.2
    rw [exampleV, exampleW, h]
    simp [Finset.sum_range_succ]
  · have h := (dense_product_base.toScalar_inner (R := Int) rfl 3 (by decide)
      (fun i _ => [1, 2, 3].getD i 0) (fun i _ => [1, 2, 3].getD i 0)
      ProductOption.DefaultProduct).2.2.2.2
    rw [exampleV, h]
    simp [Finset.sum_range_succ]

/-! ### Guards of the coefficient accessors -/

/-- The static flag in terms of the compile-time sizes and the option. -/
theorem ProductImpl.EnableCoeff_eq_true_iff (Rows Cols : Int) (opt : ProductOption) :
    ProductImpl.EnableCoeff Rows Cols opt = true ↔
      ((Rows = 1 ∨ Rows = Dynamic) ∧ (Cols = 1 ∨ Cols = Dynamic)) ∨
        opt = ProductOption.LazyProduct := by
  simp [ProductImpl.EnableCoeff, ProductImpl.IsOneByOne]

/-- The runtime condition in terms of the option and the runtime shape. -/
theorem ProductImpl.runtimeCondition_eq_true_iff {R : Type} (p : Product R) :
    ProductImpl.runtimeCondition p = true ↔
      p.option = ProductOption.LazyProduct ∨ (p.rows = 1 ∧ p.cols = 1) := by
  simp [ProductImpl.runtimeCondition]

/-- A runtime dimension equal to one forces a consistent compile-time
dimension to be one or `Dynamic`. -/
theorem shapeConsistent_one {ct : Int} {rt : Nat} (h : shapeConsistent ct rt) (h1 : rt = 1) :
    ct = 1 ∨ ct = Dynamic := by
  rcases h with h | h
  · exact Or.inr h
  · exact Or.inl (by simp [h, h1])

/-- C6 (as stated, refuted): the product of a 2 x 3 and a 3 x 4 matrix with
option `DefaultProduct` and both compile-time sizes `Dynamic` is not lazy, is not
1 x 1, and its runtime shape is consistent with its compile-time shape, yet
`EnableCoeff` is true: `coeff(0, 0)` and `coeff(0)` pass the static assertion
and are stopped by the runtime assertion. -/
theorem ProductImpl.EnableCoeff_dynamic_counterexample :
    (exampleAB.option ≠
      ProductOption.LazyProduct) ∧
    ¬ (Product.rows exampleAB = 1 ∧
      Product.cols exampleAB = 1) ∧
    shapeConsistent Dynamic (Product.rows exampleAB) ∧
    shapeConsistent Dynamic (Product.cols exampleAB) ∧
    ProductImpl.EnableCoeff Dynamic Dynamic ProductOption.DefaultProduct = true ∧
    ProductImpl.coeff Dynamic Dynamic exampleAB 0 0 =
      CoeffOutcome.assertFailed ∧
    ProductImpl.coeffIndex (fun _ _ => 0) Dynamic Dynamic exampleAB 0 =
      CoeffOutcome.assertFailed := by
  refine ⟨by decide, by decide, Or.inl rfl, Or.inl rfl, by decide, rfl, rfl⟩

/-- C6 (amended): for a dense product whose option is not lazy and whose
result is not 1 x 1 (runtime shape consistent with the compile-time shape),
`EnableCoeff` is false exactly when a compile-time dimension is fixed and
different from one, and then `coeff(i, j)` and `coeff(i)` are rejected by the
static assertion; when both compile-time dimensions are one or `Dynamic`,
`EnableCoeff` is true and both calls are stopped by the runtime assertion. In
either case no coefficient is returned. -/
theorem ProductImpl.coeff_rejected_not_lazy {R : Type} [CommRing R] [NumTraits R]
    (ev : Product R → Nat → R) (Rows Cols : Int) (p : Product R)
    (_hr : shapeConsistent Rows p.rows) (_hc : shapeConsistent Cols p.cols)
    (hopt : p.option ≠ ProductOption.LazyProduct) (hshape : ¬ (p.rows = 1 ∧ p.cols = 1))
    (row col i : Nat) :
    (ProductImpl.EnableCoeff Rows Cols p.option = false ↔
      ((Rows ≠ 1 ∧ Rows ≠ Dynamic) ∨ (Cols ≠ 1 ∧ Cols ≠ Dynamic))) ∧
    (((Rows ≠ 1 ∧ Rows ≠ Dynamic) ∨ (Cols ≠ 1 ∧ Cols ≠ Dynamic)) →
      ProductImpl.coeff Rows Cols p row col = CoeffOutcome.staticAssertFailed ∧
      ProductImpl.coeffIndex ev Rows Cols p i = CoeffOutcome.staticAssertFailed) ∧
    (((Rows = 1 ∨ Rows = Dynamic) ∧ (Cols = 1 ∨ Cols = Dynamic)) →
      ProductImpl.EnableCoeff Rows Cols p.option = true ∧
      ProductImpl.coeff Rows Cols p row col = CoeffOutcome.assertFailed ∧
      ProductImpl.coeffIndex ev Rows Cols p i = CoeffOutcome.assertFailed) := by
  have hrun : ProductImpl.runtimeCondition p = false := by
    rw [← Bool.not_eq_true, ProductImpl.runtimeCondition_eq_true_iff]
    rintro (h | h)
    · exact hopt h
    · exact hshape h
  have hiff : ProductImpl.EnableCoeff Rows Cols p.option = false ↔
      ((Rows ≠ 1 ∧ Rows ≠ Dynamic) ∨ (Cols ≠ 1 ∧ Cols ≠ Dynamic)) := by
    rw [← Bool.not_eq_true, ProductImpl.EnableCoeff_eq_true_iff]
    constructor
    · intro h
      by_contra hcon
      apply h
      left
      push_neg at hcon
      constructor
      · by_cases h1 : Rows = 1
        · exact Or.inl h1
        · exact Or.inr (hcon.1 h1)
      · by_cases h1 : Cols = 1
        · exact Or.inl h1
        · exact Or.inr (hcon.2 h1)
    · rintro h (⟨hR, hC⟩ | hl)
      · rcases h with ⟨h1, h2⟩ | ⟨h1, h2⟩
        · rcases hR with hR | hR
          · exact h1 hR
          · exact h2 hR
        · rcases hC with hC | hC
          · exact h1 hC
          · exact h2 hC
      · exact hopt hl
  refine ⟨hiff, ?_, ?_⟩
  · intro h
    have he := hiff.2 h
    simp [ProductImpl.coeff, ProductImpl.coeffIndex, he]
  · intro h
    have he : ProductImpl.EnableCoeff Rows Cols p.option = true :=
      (ProductImpl.EnableCoeff_eq_true_iff Rows Cols p.option).2 (Or.inl h)
    simp [ProductImpl.coeff, ProductImpl.coeffIndex, he, hrun]

/-- Witness for C6 (amended): the 2 x 3 times 3 x 4 product with compile-time
sizes 2 and `Dynamic` is rejected by the static assertion. -/
theorem ProductImpl.coeff_rejected_not_lazy_witness :
    ProductImpl.EnableCoeff 2 Dynamic ProductOption.DefaultProduct = false ∧
    ProductImpl.coeff 2 Dynamic exampleAB 1 3 =
      CoeffOutcome.staticAssertFailed :=
  have h := ProductImpl.coeff_rejected_not_lazy (fun _ _ => (0 : Int)) 2 Dynamic
    exampleAB
    (Or.inr rfl) (Or.inl rfl) (by decide) (by decide) 1 3 0
  ⟨h.1.2 (Or.inl ⟨by decide, by decide⟩), (h.2.1 (Or.inl ⟨by decide, by decide⟩)).1⟩

/-- C10: for every dense product whose runtime shape is consistent with its
compile-time shape, `coeff(i, j)` and `coeff(i)` pass both the static and the
runtime assertion (and return a coefficient) if and only if the option is
`LazyProduct` or the runtime result is 1 x 1; the static assertion accepts
every call the runtime assertion accepts; and a non-lazy product with `Dynamic`
compile-time dimensions whose runtime shape is not 1 x 1 passes the static
assertion and fails the runtime one. -/
theorem ProductImpl.coeff_passes_iff {R : Type} [CommRing R] [NumTraits R]
    (ev : Product R → Nat → R) (Rows Cols : Int) (p : Product R)
    (hr : shapeConsistent Rows p.rows) (hc : shapeConsistent Cols p.cols)
    (row col i : Nat) :
    ((ProductImpl.EnableCoeff Rows Cols p.option = true ∧
        ProductImpl.runtimeCondition p = true) ↔
      (p.option = ProductOption.LazyProduct ∨ (p.rows = 1 ∧ p.cols = 1))) ∧
    ((∃ s, ProductImpl.coeff Rows Cols p row col = CoeffOutcome.value s) ↔
      (p.option = ProductOption.LazyProduct ∨ (p.rows = 1 ∧ p.cols = 1))) ∧
    ((∃ s, ProductImpl.coeffIndex ev Rows Cols p i = CoeffOutcome.value s) ↔
      (p.option = ProductOption.LazyProduct ∨ (p.rows = 1 ∧ p.cols = 1))) ∧
    (ProductImpl.runtimeCondition p = true →
      ProductImpl.EnableCoeff Rows Cols p.option = true) ∧
    (p.option ≠ ProductOption.LazyProduct → Rows = Dynamic → Cols = Dynamic →
      ¬ (p.rows = 1 ∧ p.cols = 1) →
      ProductImpl.EnableCoeff Rows Cols p.option = true ∧
      ProductImpl.runtimeCondition p = false ∧
      ProductImpl.coeff Rows Cols p row col = CoeffOutcome.assertFailed ∧
      ProductImpl.coeffIndex ev Rows Cols p i = CoeffOutcome.assertFailed) := by
  have himp : ProductImpl.runtimeCondition p = true →
      ProductImpl.EnableCoeff Rows Cols p.option = true := by
    intro h
    rw [ProductImpl.runtimeCondition_eq_true_iff] at h
    rw [ProductImpl.EnableCoeff_eq_true_iff]
    rcases h with h | ⟨h1, h2⟩
    · exact Or.inr h
    · exact Or.inl ⟨shapeConsistent_one hr h1, shapeConsistent_one hc h2⟩
  have hboth : (ProductImpl.EnableCoeff Rows Cols p.option = true ∧
        ProductImpl.runtimeCondition p = true) ↔
      (p.option = ProductOption.LazyProduct ∨ (p.rows = 1 ∧ p.cols = 1)) := by
    rw [← ProductImpl.runtimeCondition_eq_true_iff]
    exact ⟨fun h => h.2, fun h => ⟨himp h, h⟩⟩
  refine ⟨hboth, ?_, ?_, himp, ?_⟩
  · rw [← hboth]
    unfold ProductImpl.coeff
    cases he : ProductImpl.EnableCoeff Rows Cols p.option <;>
      cases hq : ProductImpl.runtimeCondition p <;> simp
  · rw [← hboth]
    unfold ProductImpl.coeffIndex
    cases he : ProductImpl.EnableCoeff Rows Cols p.option <;>
      cases hq : ProductImpl.runtimeCondition p <;> simp
  · intro hopt hR hC hshape
    have he : ProductImpl.EnableCoeff Rows Cols p.option = true :=
      (ProductImpl.EnableCoeff_eq_true_iff Rows Cols p.option).2
        (Or.inl ⟨Or.inr hR, Or.inr hC⟩)
    have hrun : ProductImpl.runtimeCondition p = false := by
      rw [← Bool.not_eq_true, ProductImpl.runtimeCondition_eq_true_iff]
      rintro (h | h)
      · exact hopt h
      · exact hshape h
    exact ⟨he, hrun, by simp [ProductImpl.coeff, he, hrun],
      by simp [ProductImpl.coeffIndex, he, hrun]⟩

/-- Witness for C10: the inner product `v.adjoint() * w` of the example
vectors, with compile-time sizes 1 and 1, returns coefficient `(0, 0)`. -/
theorem ProductImpl.coeff_passes_iff_witness :
    shapeConsistent 1 (Product.rows exampleVW) ∧
    shapeConsistent 1 (Product.cols exampleVW) ∧
    ∃ s, ProductImpl.coeff 1 1 exampleVW 0 0 = CoeffOutcome.value s :=
  ⟨Or.inr rfl, Or.inr rfl,
    (ProductImpl.coeff_passes_iff (fun _ _ => (0 : Int)) 1 1
      exampleVW
      (Or.inr rfl) (Or.inr rfl) 0 0 0).2.1.2 (Or.inr ⟨rfl, rfl⟩)⟩

/-! ### The blocking-size lookup table -/

set_option maxRecDepth 1000000 in
/-- The table has 512 entries and every one of them passes the range check. -/
theorem BlockingSizesLookupTable_float_float.table_checked :
    BlockingSizesLookupTable_float_float.Data.length = 512 ∧
    BlockingSizesLookupTable_float_float.allInRange
      BlockingSizesLookupTable_float_float.Data 0 = true := by
  decide

/-- A checked run of entries is in range at each of its positions. -/
theorem BlockingSizesLookupTable_float_float.allInRange_getD (l : List Nat) :
    ∀ (s i : Nat), BlockingSizesLookupTable_float_float.allInRange l s = true →
      i < l.length →
      BlockingSizesLookupTable_float_float.fieldsInRange (s + i) (l.getD i 0) = true := by
  induction l with
  | nil => intro s i _ hi; simp at hi
  | cons e es ih =>
    intro s i h hi
    simp only [BlockingSizesLookupTable_float_float.allInRange, Bool.and_eq_true] at h
    cases i with
    | zero => simpa using h.1
    | succ i =>
      have hi2 : i < es.length := by simpa using hi
      have := ih (s + 1) i h.2 hi2
      have hs : s + (i + 1) = s + 1 + i := by omega
      rw [hs]
      simpa using this

/-- The field bounds of the entry at the position of a bucket triple. -/
theorem BlockingSizesLookupTable_float_float.fields_of_indices (k_idx m_idx n_idx : Nat)
    (hk : k_idx < 8) (hm : m_idx < 8) (hn : n_idx < 8) :
    4 ≤ BlockingSizesLookupTable_float_float.kField
        (BlockingSizesLookupTable_float_float.Data.getD (n_idx + 8 * (m_idx + 8 * k_idx)) 0) ∧
    BlockingSizesLookupTable_float_float.kField
        (BlockingSizesLookupTable_float_float.Data.getD (n_idx + 8 * (m_idx + 8 * k_idx)) 0)
      ≤ 4 + k_idx ∧
    4 ≤ BlockingSizesLookupTable_float_float.mField
        (BlockingSizesLookupTable_float_float.Data.getD (n_idx + 8 * (m_idx + 8 * k_idx)) 0) ∧
    BlockingSizesLookupTable_float_float.mField
        (BlockingSizesLookupTable_float_float.Data.getD (n_idx + 8 * (m_idx + 8 * k_idx)) 0)
      ≤ 4 + m_idx ∧
    4 ≤ BlockingSizesLookupTable_float_float.nField
        (BlockingSizesLookupTable_float_float.Data.getD (n_idx + 8 * (m_idx + 8 * k_idx)) 0) ∧
    BlockingSizesLookupTable_float_float.nField
        (BlockingSizesLookupTable_float_float.Data.getD (n_idx + 8 * (m_idx + 8 * k_idx)) 0)
      ≤ 4 + n_idx := by
  have hlen := BlockingSizesLookupTable_float_float.table_checked.1
  have hidx : n_idx + 8 * (m_idx + 8 * k_idx) <
      BlockingSizesLookupTable_float_float.Data.length := by omega
  have h := BlockingSizesLookupTable_float_float.allInRange_getD _ 0
    (n_idx + 8 * (m_idx + 8 * k_idx)) BlockingSizesLookupTable_float_float.table_checked.2 hidx
  have e1 : (n_idx + 8 * (m_idx + 8 * k_idx)) / 64 = k_idx := by omega
  have e2 : (n_idx + 8 * (m_idx + 8 * k_idx)) / 8 % 8 = m_idx := by omega
  have e3 : (n_idx + 8 * (m_idx + 8 * k_idx)) % 8 = n_idx := by omega
  simp only [BlockingSizesLookupTable_float_float.fieldsInRange, Nat.zero_add, e1, e2, e3,
    Bool.and_eq_true, decide_eq_true_eq] at h
  obtain ⟨⟨⟨⟨⟨⟨_, h1⟩, h2⟩, h3⟩, h4⟩, h5⟩, h6⟩ := h
  exact ⟨h1, h2, h3, h4, h5, h6⟩

/-- The binary logarithm of the base size 16 is 4. -/
theorem log2_BaseSize : Nat.log2 BlockingSizesLookupTable_float_float.BaseSize = 4 := by
  have h1 : 4 ≤ Nat.log2 16 := (Nat.le_log2 (by decide)).2 (by decide)
  have h2 : Nat.log2 16 < 5 := (Nat.log2_lt (by decide)).2 (by decide)
  show Nat.log2 16 = 4
  omega

/-- The clamped dimension lies between 16 and 2048. -/
theorem clamp_bounds (d : Nat) :
    16 ≤ min (max d 16) (16 * 2 ^ (8 - 1)) ∧ min (max d 16) (16 * 2 ^ (8 - 1)) ≤ 2048 := by
  have h : 16 * 2 ^ (8 - 1) = 2048 := by decide
  rw [h]
  omega

/-- The bucket of every dimension is one of the eight indices `0..7`. -/
theorem floor_log2_clamp_lt (d : Nat) :
    floor_log2_clamp BlockingSizesLookupTable_float_float.BaseSize
      BlockingSizesLookupTable_float_float.NumSizes d < 8 := by
  unfold floor_log2_clamp
  rw [log2_BaseSize]
  show Nat.log2 (min (max d 16) (16 * 2 ^ (8 - 1))) - 4 < 8
  have hb := clamp_bounds d
  have h2 : Nat.log2 (min (max d 16) (16 * 2 ^ (8 - 1))) < 12 :=
    (Nat.log2_lt (by omega)).2 (lt_of_le_of_lt hb.2 (by decide))
  omega

/-- For a dimension of at least the base size, the smallest dimension of its
bucket, `BaseSize * 2^bucket`, does not exceed it. -/
theorem two_pow_bucket_le (d : Nat) (hd : 16 ≤ d) :
    2 ^ (4 + floor_log2_clamp BlockingSizesLookupTable_float_float.BaseSize
      BlockingSizesLookupTable_float_float.NumSizes d) ≤ d := by
  unfold floor_log2_clamp
  rw [log2_BaseSize]
  show 2 ^ (4 + (Nat.log2 (min (max d 16) (16 * 2 ^ (8 - 1))) - 4)) ≤ d
  have hb := clamp_bounds d
  have hne : min (max d 16) (16 * 2 ^ (8 - 1)) ≠ 0 := by omega
  have h4 : 4 ≤ Nat.log2 (min (max d 16) (16 * 2 ^ (8 - 1))) :=
    (Nat.le_log2 hne).2 (le_trans (by decide) hb.1)
  have he : 4 + (Nat.log2 (min (max d 16) (16 * 2 ^ (8 - 1))) - 4) =
      Nat.log2 (min (max d 16) (16 * 2 ^ (8 - 1))) := by omega
  rw [he]
  calc 2 ^ Nat.log2 (min (max d 16) (16 * 2 ^ (8 - 1)))
      ≤ min (max d 16) (16 * 2 ^ (8 - 1)) := Nat.log2_self_le hne
    _ ≤ max d 16 := min_le_left _ _
    _ = d := max_eq_left hd

/-- The bucket of a dimension below the base size is zero. -/
theorem floor_log2_clamp_small (d : Nat) (hd : d < 16) :
    floor_log2_clamp BlockingSizesLookupTable_float_float.BaseSize
      BlockingSizesLookupTable_float_float.NumSizes d = 0 := by
  unfold floor_log2_clamp
  rw [log2_BaseSize]
  show Nat.log2 (min (max d 16) (16 * 2 ^ (8 - 1))) - 4 = 0
  have h : min (max d 16) (16 * 2 ^ (8 - 1)) = 16 := by
    have h2 : 16 * 2 ^ (8 - 1) = 2048 := by decide
    rw [h2]
    omega
  rw [h]
  have := log2_BaseSize
  have h3 : Nat.log2 16 = 4 := this
  omega

/-- The three decoded fields of the entry selected for `k`, `m`, `n` lie
between 4 and 4 plus the bucket of their dimension. -/
theorem BlockingSizesLookupTable_float_float.entry_fields (k m n : Nat) :
    4 ≤ BlockingSizesLookupTable_float_float.kField
        (BlockingSizesLookupTable_float_float.entry k m n) ∧
    BlockingSizesLookupTable_float_float.kField
        (BlockingSizesLookupTable_float_float.entry k m n) ≤
      4 + floor_log2_clamp BlockingSizesLookupTable_float_float.BaseSize
        BlockingSizesLookupTable_float_float.NumSizes k ∧
    4 ≤ BlockingSizesLookupTable_float_float.mField
        (BlockingSizesLookupTable_float_float.entry k m n) ∧
    BlockingSizesLookupTable_float_float.mField
        (BlockingSizesLookupTable_float_float.entry k m n) ≤
      4 + floor_log2_clamp BlockingSizesLookupTable_float_float.BaseSize
        BlockingSizesLookupTable_float_float.NumSizes m ∧
    4 ≤ BlockingSizesLookupTable_float_float.nField
        (BlockingSizesLookupTable_float_float.entry k m n) ∧
    BlockingSizesLookupTable_float_float.nField
        (BlockingSizesLookupTable_float_float.entry k m n) ≤
      4 + floor_log2_clamp BlockingSizesLookupTable_float_float.BaseSize
        BlockingSizesLookupTable_float_float.NumSizes n :=
  BlockingSizesLookupTable_float_float.fields_of_indices _ _ _
    (floor_log2_clamp_lt k) (floor_log2_clamp_lt m) (floor_log2_clamp_lt n)

/-- C9: for all matrix dimensions `M, N, K >= 1`, the block sizes obtained
from the lookup table are strictly positive and none exceeds the corresponding
matrix dimension. Moreover, for a dimension of at least `BaseSize = 16` the
block size is the decoded table value `2^field` itself: the table alone keeps
it within the dimension. -/
theorem BlockingSizesLookupTable_float_float.blockSizes_bounds (k m n : Nat)
    (hk : 1 ≤ k) (hm : 1 ≤ m) (hn : 1 ≤ n) :
    (0 < (BlockingSizesLookupTable_float_float.blockSizes k m n).1 ∧
     0 < (BlockingSizesLookupTable_float_float.blockSizes k m n).2.1 ∧
     0 < (BlockingSizesLookupTable_float_float.blockSizes k m n).2.2) ∧
    ((BlockingSizesLookupTable_float_float.blockSizes k m n).1 ≤ k ∧
     (BlockingSizesLookupTable_float_float.blockSizes k m n).2.1 ≤ m ∧
     (BlockingSizesLookupTable_float_float.blockSizes k m n).2.2 ≤ n) ∧
    ((BlockingSizesLookupTable_float_float.BaseSize ≤ k →
        (BlockingSizesLookupTable_float_float.blockSizes k m n).1 = 2 ^ BlockingSizesLookupTable_float_float.kField (BlockingSizesLookupTable_float_float.entry k m n)) ∧
     (BlockingSizesLookupTable_float_float.BaseSize ≤ m →
        (BlockingSizesLookupTable_float_float.blockSizes k m n).2.1 = 2 ^ BlockingSizesLookupTable_float_float.mField (BlockingSizesLookupTable_float_float.entry k m n)) ∧
     (BlockingSizesLookupTable_float_float.BaseSize ≤ n →
        (BlockingSizesLookupTable_float_float.blockSizes k m n).2.2 = 2 ^ BlockingSizesLookupTable_float_float.nField (BlockingSizesLookupTable_float_float.entry k m n))) := by
  obtain ⟨_, k2, _, m2, _, n2⟩ := BlockingSizesLookupTable_float_float.entry_fields k m n
  have upper : ∀ (f d : Nat),
      f ≤ 4 + floor_log2_clamp BlockingSizesLookupTable_float_float.BaseSize BlockingSizesLookupTable_float_float.NumSizes d →
      BlockingSizesLookupTable_float_float.BaseSize ≤ d → 2 ^ f ≤ d := by
    intro f d hf hd
    exact le_trans (Nat.pow_le_pow_right (by decide) hf) (two_pow_bucket_le d hd)
  have pos : ∀ (f d : Nat), 1 ≤ d → 0 < min d (2 ^ f) := by
    intro f d hd
    exact lt_min hd (Nat.pos_pow_of_pos _ (by decide))
  simp only [BlockingSizesLookupTable_float_float.blockSizes]
  exact ⟨⟨pos _ k hk, pos _ m hm, pos _ n hn⟩,
    ⟨min_le_left _ _, min_le_left _ _, min_le_left _ _⟩,
    ⟨fun h => min_eq_right (upper _ k k2 h), fun h => min_eq_right (upper _ m m2 h),
      fun h => min_eq_right (upper _ n n2 h)⟩⟩

/-- Witness for C9: for `K = 100`, `M = 300`, `N = 20` the selected entry is
`0x684` and the block sizes are `(64, 256, 16)`, positive and within the
dimensions. -/
theorem BlockingSizesLookupTable_float_float.blockSizes_bounds_witness :
    (1 ≤ 100 ∧ 1 ≤ 300 ∧ 1 ≤ 20) ∧
    BlockingSizesLookupTable_float_float.entry 100 300 20 = 0x684 ∧
    BlockingSizesLookupTable_float_float.blockSizes 100 300 20 = (64, 256, 16) ∧
    (0 < (BlockingSizesLookupTable_float_float.blockSizes 100 300 20).1 ∧ (BlockingSizesLookupTable_float_float.blockSizes 100 300 20).1 ≤ 100) ∧
    (0 < (BlockingSizesLookupTable_float_float.blockSizes 100 300 20).2.1 ∧ (BlockingSizesLookupTable_float_float.blockSizes 100 300 20).2.1 ≤ 300) ∧
    (0 < (BlockingSizesLookupTable_float_float.blockSizes 100 300 20).2.2 ∧ (BlockingSizesLookupTable_float_float.blockSizes 100 300 20).2.2 ≤ 20) := by
  have h := BlockingSizesLookupTable_float_float.blockSizes_bounds 100 300 20 (by decide) (by decide) (by decide)
  have bk : floor_log2_clamp BlockingSizesLookupTable_float_float.BaseSize BlockingSizesLookupTable_float_float.NumSizes 100 = 2 := by
    simp [floor_log2_clamp, Nat.log2, BlockingSizesLookupTable_float_float.BaseSize, BlockingSizesLookupTable_float_float.NumSizes]
  have bm : floor_log2_clamp BlockingSizesLookupTable_float_float.BaseSize BlockingSizesLookupTable_float_float.NumSizes 300 = 4 := by
    simp [floor_log2_clamp, Nat.log2, BlockingSizesLookupTable_float_float.BaseSize, BlockingSizesLookupTable_float_float.NumSizes]
  have bn : floor_log2_clamp BlockingSizesLookupTable_float_float.BaseSize BlockingSizesLookupTable_float_float.NumSizes 20 = 0 := by
    simp [floor_log2_clamp, Nat.log2, BlockingSizesLookupTable_float_float.BaseSize, BlockingSizesLookupTable_float_float.NumSizes]
  have he : BlockingSizesLookupTable_float_float.entry 100 300 20 = 0x684 := by
    simp only [BlockingSizesLookupTable_float_float.entry, bk, bm, bn]
    rfl
  have hb : BlockingSizesLookupTable_float_float.blockSizes 100 300 20 = (64, 256, 16) := by
    simp only [BlockingSizesLookupTable_float_float.blockSizes, he]
    decide
  exact ⟨⟨by decide, by decide, by decide⟩, he, hb, ⟨h.1.1, h.2.1.1⟩, ⟨h.1.2.1, h.2.1.2.1⟩,
    ⟨h.1.2.2, h.2.1.2.2⟩⟩

/-! ### The rewritten products are well formed -/

/-- The bucket of the dimension `BaseSize * 2^idx` is `idx`, and every
dimension of bucket `idx`, clamped to `[BaseSize, BaseSize * 2^(NumSizes-1)]`
as the bucket function clamps it, is at least `BaseSize * 2^idx`. -/
theorem floor_log2_clamp_smallest (idx : Nat) (hidx : idx < 8) :
    floor_log2_clamp BlockingSizesLookupTable_float_float.BaseSize BlockingSizesLookupTable_float_float.NumSizes (BlockingSizesLookupTable_float_float.BaseSize * 2 ^ idx) = idx ∧
    ∀ d, floor_log2_clamp BlockingSizesLookupTable_float_float.BaseSize BlockingSizesLookupTable_float_float.NumSizes d = idx →
      BlockingSizesLookupTable_float_float.BaseSize * 2 ^ idx ≤
        min (max d BlockingSizesLookupTable_float_float.BaseSize) (BlockingSizesLookupTable_float_float.BaseSize * 2 ^ (BlockingSizesLookupTable_float_float.NumSizes - 1)) := by
  have hpow : BlockingSizesLookupTable_float_float.BaseSize * 2 ^ idx = 2 ^ (4 + idx) := by
    show 16 * 2 ^ idx = 2 ^ (4 + idx)
    rw [Nat.pow_add]
  constructor
  · unfold floor_log2_clamp
    rw [log2_BaseSize, hpow]
    show Nat.log2 (min (max (2 ^ (4 + idx)) 16) (16 * 2 ^ (8 - 1))) - 4 = idx
    have hlo : 2 ^ 4 ≤ 2 ^ (4 + idx) := Nat.pow_le_pow_right (by decide) (by omega)
    have hhi : 2 ^ (4 + idx) ≤ 2 ^ 11 := Nat.pow_le_pow_right (by decide) (by omega)
    have h2 : 16 * 2 ^ (8 - 1) = 2 ^ 11 := by decide
    have h16 : (16 : Nat) = 2 ^ 4 := by decide
    rw [h2, h16, max_eq_left hlo, min_eq_left hhi, Nat.log2_two_pow]
    omega
  · intro d hd
    rw [hpow]
    show 2 ^ (4 + idx) ≤ min (max d 16) (16 * 2 ^ (8 - 1))
    have hb := clamp_bounds d
    have hne : min (max d 16) (16 * 2 ^ (8 - 1)) ≠ 0 := by omega
    have h4 : 4 ≤ Nat.log2 (min (max d 16) (16 * 2 ^ (8 - 1))) :=
      (Nat.le_log2 hne).2 (le_trans (by decide) hb.1)
    have hd2 : Nat.log2 (min (max d 16) (16 * 2 ^ (8 - 1))) - 4 = idx := by
      have := hd
      unfold floor_log2_clamp at this
      rw [log2_BaseSize] at this
      exact this
    have he : 4 + idx = Nat.log2 (min (max d 16) (16 * 2 ^ (8 - 1))) := by omega
    rw [he]
    exact Nat.log2_self_le hne

/-- C12: the table has exactly `NumSizes^3 = 512` entries, and for every
bucket triple `(k_idx, m_idx, n_idx)` with each index below `NumSizes`, the
position `n_idx + NumSizes * (m_idx + NumSizes * k_idx)` is inside the table
and its entry `e` satisfies `e < 0x1000`; each of its three 4-bit fields lies
between `log2(BaseSize) = 4` and 4 plus the index of its own dimension; hence
every decoded block size is a power of two that is at least `BaseSize = 16`
and at most `BaseSize * 2^idx`. That bound is itself a dimension of bucket
`idx`, and no dimension of bucket `idx`, clamped as the bucket function clamps
it, is smaller. -/
theorem BlockingSizesLookupTable_float_float.Data_invariant (k_idx m_idx n_idx : Nat)
    (hk : k_idx < BlockingSizesLookupTable_float_float.NumSizes) (hm : m_idx < BlockingSizesLookupTable_float_float.NumSizes)
    (hn : n_idx < BlockingSizesLookupTable_float_float.NumSizes) :
    (BlockingSizesLookupTable_float_float.Data.length = BlockingSizesLookupTable_float_float.NumSizes ^ 3 ∧ BlockingSizesLookupTable_float_float.NumSizes ^ 3 = 512 ∧
      Nat.log2 BlockingSizesLookupTable_float_float.BaseSize = 4) ∧
    (n_idx + BlockingSizesLookupTable_float_float.NumSizes * (m_idx + BlockingSizesLookupTable_float_float.NumSizes * k_idx) < BlockingSizesLookupTable_float_float.Data.length ∧
      BlockingSizesLookupTable_float_float.Data.getD
        (n_idx + BlockingSizesLookupTable_float_float.NumSizes * (m_idx + BlockingSizesLookupTable_float_float.NumSizes * k_idx)) 0 < 0x1000) ∧
    ((4 ≤ BlockingSizesLookupTable_float_float.kField
      (BlockingSizesLookupTable_float_float.Data.getD
        (n_idx + BlockingSizesLookupTable_float_float.NumSizes * (m_idx + BlockingSizesLookupTable_float_float.NumSizes * k_idx)) 0) ∧
      BlockingSizesLookupTable_float_float.kField
      (BlockingSizesLookupTable_float_float.Data.getD
        (n_idx + BlockingSizesLookupTable_float_float.NumSizes * (m_idx + BlockingSizesLookupTable_float_float.NumSizes * k_idx)) 0) ≤ 4 + k_idx) ∧
     (BlockingSizesLookupTable_float_float.BaseSize ≤ 2 ^ BlockingSizesLookupTable_float_float.kField
      (BlockingSizesLookupTable_float_float.Data.getD
        (n_idx + BlockingSizesLookupTable_float_float.NumSizes * (m_idx + BlockingSizesLookupTable_float_float.NumSizes * k_idx)) 0) ∧
      2 ^ BlockingSizesLookupTable_float_float.kField
      (BlockingSizesLookupTable_float_float.Data.getD
        (n_idx + BlockingSizesLookupTable_float_float.NumSizes * (m_idx + BlockingSizesLookupTable_float_float.NumSizes * k_idx)) 0) ≤ BlockingSizesLookupTable_float_float.BaseSize * 2 ^ k_idx)) ∧
    ((4 ≤ BlockingSizesLookupTable_float_float.mField
      (BlockingSizesLookupTable_float_float.Data.getD
        (n_idx + BlockingSizesLookupTable_float_float.NumSizes * (m_idx + BlockingSizesLookupTable_float_float.NumSizes * k_idx)) 0) ∧
      BlockingSizesLookupTable_float_float.mField
      (BlockingSizesLookupTable_float_float.Data.getD
        (n_idx + BlockingSizesLookupTable_float_float.NumSizes * (m_idx + BlockingSizesLookupTable_float_float.NumSizes * k_idx)) 0) ≤ 4 + m_idx) ∧
     (BlockingSizesLookupTable_float_float.BaseSize ≤ 2 ^ BlockingSizesLookupTable_float_float.mField
      (BlockingSizesLookupTable_float_float.Data.getD
        (n_idx + BlockingSizesLookupTable_float_float.NumSizes * (m_idx + BlockingSizesLookupTable_float_float.NumSizes * k_idx)) 0) ∧
      2 ^ BlockingSizesLookupTable_float_float.mField
      (BlockingSizesLookupTable_float_float.Data.getD
        (n_idx + BlockingSizesLookupTable_float_float.NumSizes * (m_idx + BlockingSizesLookupTable_float_float.NumSizes * k_idx)) 0) ≤ BlockingSizesLookupTable_float_float.BaseSize * 2 ^ m_idx)) ∧
    ((4 ≤ BlockingSizesLookupTable_float_float.nField
      (BlockingSizesLookupTable_float_float.Data.getD
        (n_idx + BlockingSizesLookupTable_float_float.NumSizes * (m_idx + BlockingSizesLookupTable_float_float.NumSizes * k_idx)) 0) ∧
      BlockingSizesLookupTable_float_float.nField
      (BlockingSizesLookupTable_float_float.Data.getD
        (n_idx + BlockingSizesLookupTable_float_float.NumSizes * (m_idx + BlockingSizesLookupTable_float_float.NumSizes * k_idx)) 0) ≤ 4 + n_idx) ∧
     (BlockingSizesLookupTable_float_float.BaseSize ≤ 2 ^ BlockingSizesLookupTable_float_float.nField
      (BlockingSizesLookupTable_float_float.Data.getD
        (n_idx + BlockingSizesLookupTable_float_float.NumSizes * (m_idx + BlockingSizesLookupTable_float_float.NumSizes * k_idx)) 0) ∧
      2 ^ BlockingSizesLookupTable_float_float.nField
      (BlockingSizesLookupTable_float_float.Data.getD
        (n_idx + BlockingSizesLookupTable_float_float.NumSizes * (m_idx + BlockingSizesLookupTable_float_float.NumSizes * k_idx)) 0) ≤ BlockingSizesLookupTable_float_float.BaseSize * 2 ^ n_idx)) ∧
    (floor_log2_clamp BlockingSizesLookupTable_float_float.BaseSize BlockingSizesLookupTable_float_float.NumSizes (BlockingSizesLookupTable_float_float.BaseSize * 2 ^ k_idx) = k_idx ∧
      ∀ d, floor_log2_clamp BlockingSizesLookupTable_float_float.BaseSize BlockingSizesLookupTable_float_float.NumSizes d = k_idx →
        BlockingSizesLookupTable_float_float.BaseSize * 2 ^ k_idx ≤
          min (max d BlockingSizesLookupTable_float_float.BaseSize) (BlockingSizesLookupTable_float_float.BaseSize * 2 ^ (BlockingSizesLookupTable_float_float.NumSizes - 1))) ∧
    (floor_log2_clamp BlockingSizesLookupTable_float_float.BaseSize BlockingSizesLookupTable_float_float.NumSizes (BlockingSizesLookupTable_float_float.BaseSize * 2 ^ m_idx) = m_idx ∧
      ∀ d, floor_log2_clamp BlockingSizesLookupTable_float_float.BaseSize BlockingSizesLookupTable_float_float.NumSizes d = m_idx →
        BlockingSizesLookupTable_float_float.BaseSize * 2 ^ m_idx ≤
          min (max d BlockingSizesLookupTable_float_float.BaseSize) (BlockingSizesLookupTable_float_float.BaseSize * 2 ^ (BlockingSizesLookupTable_float_float.NumSizes - 1))) ∧
    (floor_log2_clamp BlockingSizesLookupTable_float_float.BaseSize BlockingSizesLookupTable_float_float.NumSizes (BlockingSizesLookupTable_float_float.BaseSize * 2 ^ n_idx) = n_idx ∧
      ∀ d, floor_log2_clamp BlockingSizesLookupTable_float_float.BaseSize BlockingSizesLookupTable_float_float.NumSizes d = n_idx →
        BlockingSizesLookupTable_float_float.BaseSize * 2 ^ n_idx ≤
          min (max d BlockingSizesLookupTable_float_float.BaseSize) (BlockingSizesLookupTable_float_float.BaseSize * 2 ^ (BlockingSizesLookupTable_float_float.NumSizes - 1))) := by
  have hk8 : k_idx < 8 := hk
  have hm8 : m_idx < 8 := hm
  have hn8 : n_idx < 8 := hn
  have hlen := BlockingSizesLookupTable_float_float.table_checked.1
  have hidx : n_idx + 8 * (m_idx + 8 * k_idx) < BlockingSizesLookupTable_float_float.Data.length := by omega
  have hin := BlockingSizesLookupTable_float_float.allInRange_getD _ 0 (n_idx + 8 * (m_idx + 8 * k_idx))
    BlockingSizesLookupTable_float_float.table_checked.2 hidx
  simp only [BlockingSizesLookupTable_float_float.fieldsInRange, Bool.and_eq_true, decide_eq_true_eq] at hin
  have he : BlockingSizesLookupTable_float_float.Data.getD (n_idx + 8 * (m_idx + 8 * k_idx)) 0 < 0x1000 := hin.1.1.1.1.1.1
  obtain ⟨k1, k2, m1, m2, n1, n2⟩ :=
    BlockingSizesLookupTable_float_float.fields_of_indices k_idx m_idx n_idx hk8 hm8 hn8
  have pw : ∀ (f idx : Nat), 4 ≤ f → f ≤ 4 + idx →
      BlockingSizesLookupTable_float_float.BaseSize ≤ 2 ^ f ∧ 2 ^ f ≤ BlockingSizesLookupTable_float_float.BaseSize * 2 ^ idx := by
    intro f idx h1 h2
    have a : 2 ^ 4 ≤ 2 ^ f := Nat.pow_le_pow_right (by decide) h1
    have b : 2 ^ f ≤ 2 ^ (4 + idx) := Nat.pow_le_pow_right (by decide) h2
    have c : BlockingSizesLookupTable_float_float.BaseSize * 2 ^ idx = 2 ^ (4 + idx) := by
      show 16 * 2 ^ idx = 2 ^ (4 + idx)
      rw [Nat.pow_add]
    rw [c]
    exact ⟨a, b⟩
  exact ⟨⟨hlen, by decide, log2_BaseSize⟩, ⟨hidx, he⟩,
    ⟨⟨k1, k2⟩, pw _ _ k1 k2⟩, ⟨⟨m1, m2⟩, pw _ _ m1 m2⟩, ⟨⟨n1, n2⟩, pw _ _ n1 n2⟩,
    floor_log2_clamp_smallest k_idx hk8, floor_log2_clamp_smallest m_idx hm8,
    floor_log2_clamp_smallest n_idx hn8⟩

/-- Witness for C12: the bucket triple `(7, 1, 1)` selects position
457 with entry `0xb55`, whose fields are 11, 5 and 5: the decoded block sizes
2048, 32 and 32 are at most `16 * 2^7`, `16 * 2^1` and `16 * 2^1`. -/
theorem BlockingSizesLookupTable_float_float.Data_invariant_witness :
    (7 < BlockingSizesLookupTable_float_float.NumSizes ∧ 1 < BlockingSizesLookupTable_float_float.NumSizes) ∧
    BlockingSizesLookupTable_float_float.Data.getD (1 + BlockingSizesLookupTable_float_float.NumSizes * (1 + BlockingSizesLookupTable_float_float.NumSizes * 7)) 0 = 0xb55 ∧
    2 ^ BlockingSizesLookupTable_float_float.kField (BlockingSizesLookupTable_float_float.Data.getD
        (1 + BlockingSizesLookupTable_float_float.NumSizes * (1 + BlockingSizesLookupTable_float_float.NumSizes * 7)) 0) ≤ BlockingSizesLookupTable_float_float.BaseSize * 2 ^ 7 ∧
    2 ^ BlockingSizesLookupTable_float_float.mField (BlockingSizesLookupTable_float_float.Data.getD
        (1 + BlockingSizesLookupTable_float_float.NumSizes * (1 + BlockingSizesLookupTable_float_float.NumSizes * 7)) 0) ≤ BlockingSizesLookupTable_float_float.BaseSize * 2 ^ 1 :=
  have h := BlockingSizesLookupTable_float_float.Data_invariant 7 1 1 (by decide) (by decide) (by decide)
  ⟨⟨by decide, by decide⟩, rfl, h.2.2.1.2.2, h.2.2.2.1.2.2⟩

end Eigen
